import Mathlib

/-
Verification development for the simple routing queue resource
(src/genesyscloud/simple_routing_queue/resource_genesyscloud_simple_routing_queue.go).

The four lifecycle functions createSimpleRoutingQueue, readSimpleRoutingQueue,
updateSimpleRoutingQueue and deleteSimpleRoutingQueue are embedded shallowly.
Go pointer fields become Option values; a nil pointer dereference becomes an
explicit nilDeref outcome. The remote proxy is modelled as a pure function of
the call arguments; for getRoutingQueue, which is invoked repeatedly inside
retry loops, the response additionally depends on the attempt index, so that
time-varying remote behaviour (propagation lag) can be expressed. The
wall-clock retry ceiling of the poll engine is abstracted as a maximum number
of attempts (fuel).
-/

/-- Queue payload of the platform SDK (platformclientv2.Queue). Pointer
fields of the Go struct are modelled as Option values. -/
structure Queue where
  id : Option String
  name : Option String
  callingPartyName : Option String
  enableTranscription : Option Bool
deriving DecidableEq, Repr

/-- Local Terraform state for one resource (schema.ResourceData): the bound
identity plus the three declared fields. -/
structure ResourceData where
  id : String
  name : String
  calling_party_name : String
  enable_transcription : Bool
deriving DecidableEq, Repr

/-- Request body built by createSimpleRoutingQueue
(platformclientv2.Createqueuerequest). -/
structure Createqueuerequest where
  name : Option String
  callingPartyName : Option String
  enableTranscription : Option Bool
deriving DecidableEq, Repr

/-- Request body built by updateSimpleRoutingQueue
(platformclientv2.Queuerequest). -/
structure Queuerequest where
  name : Option String
  callingPartyName : Option String
  enableTranscription : Option Bool
deriving DecidableEq, Repr

/-- Result of proxy.createRoutingQueue: (queue-or-nil, error-or-nil). The
APIResponse component is discarded by the source. -/
structure CreateResult where
  queue : Option Queue
  err : Option String
deriving DecidableEq, Repr

/-- Result of proxy.getRoutingQueue: (queue-or-nil, status code, error-or-nil). -/
structure GetResult where
  queue : Option Queue
  respCode : Int
  err : Option String
deriving DecidableEq, Repr

/-- Result of proxy.updateRoutingQueue: (queue-or-nil, error-or-nil). -/
structure UpdateResult where
  queue : Option Queue
  err : Option String
deriving DecidableEq, Repr

/-- Result of proxy.deleteRoutingQueue: (error-or-nil). -/
structure DeleteResult where
  err : Option String
deriving DecidableEq, Repr

/-- Modelled from the spec: gcloud.IsStatus404ByInt is not under src/; the
spec describes it as the status classifier isNotFound(statusCode) for the
404-equivalent not-found sentinel. -/
def IsStatus404ByInt (respCode : Int) : Bool :=
  respCode == 404

/-- Remote resource client (the simple routing queue proxy), modelled as pure
response functions. getRoutingQueue takes the attempt index first, so that a
poll may observe different responses on successive attempts. -/
structure Proxy where
  createRoutingQueue : Createqueuerequest → CreateResult
  getRoutingQueue : Nat → String → GetResult
  updateRoutingQueue : String → Queuerequest → UpdateResult
  deleteRoutingQueue : String → DeleteResult

/-- Observable calls and sleeps performed by a lifecycle operation, used to
state how often each proxy function is invoked and in which order. -/
inductive Event where
  | createCall
  | getCall
  | updateCall
  | deleteCall
  | sleep (seconds : Nat)
deriving DecidableEq, Repr

/-- Outcome of one invocation of a retry check closure: the embedding of a
nil return (ok, carrying the updated resource data), of
resource.RetryableError, of resource.NonRetryableError, and of a nil pointer
dereference inside the closure. -/
inductive CheckResult where
  | ok (d : ResourceData)
  | retryable (msg : String)
  | nonRetryable (msg : String)
  | nilDeref
deriving DecidableEq, Repr

/-- Recognises the retryable outcome. -/
def CheckResult.isRetryable : CheckResult → Bool
  | .retryable _ => true
  | _ => false

/-- Recognises the non-retryable (terminal) outcome. -/
def CheckResult.isNonRetryable : CheckResult → Bool
  | .nonRetryable _ => true
  | _ => false

/-- Recognises the successful outcome. -/
def CheckResult.isOk : CheckResult → Bool
  | .ok _ => true
  | _ => false

/-- Final outcome of a bounded poll. -/
inductive PollResult where
  | success (d : ResourceData)
  | terminal (msg : String)
  | timeout (msg : String)
  | nilDeref
deriving DecidableEq, Repr

/-- Modelled from the spec: the Retry/Poll Engine (gcloud.WithRetries and
gcloud.WithRetriesForRead, which wrap resource.RetryContext, are not under
src/). The check is invoked repeatedly; a retryable outcome is retried until
the ceiling, a success or non-retryable outcome stops at once, and ceiling
elapse yields a timeout carrying the last retryable reason. The ceiling is
abstracted as fuel, the number of attempts still permitted; the pair returned
is the outcome together with the number of attempts performed. -/
def runPoll (check : Nat → CheckResult) : Nat → Nat → PollResult × Nat
  | _, 0 => (PollResult.timeout (""), 0)
  | attempt, fuel + 1 =>
    match check attempt with
    | CheckResult.ok d => (PollResult.success d, 1)
    | CheckResult.nonRetryable m => (PollResult.terminal m, 1)
    | CheckResult.nilDeref => (PollResult.nilDeref, 1)
    | CheckResult.retryable m =>
      if fuel = 0 then (PollResult.timeout m, 1)
      else
        let r := runPoll check (attempt + 1) fuel
        (r.1, r.2 + 1)

/-- Result of one lifecycle operation: the diag.Diagnostics of the source,
with ok carrying the final resource data, err carrying the diag.Errorf
message, and nilDeref marking a nil pointer dereference. -/
inductive OpResult where
  | ok (d : ResourceData)
  | err (msg : String)
  | nilDeref
deriving DecidableEq, Repr

/-- Converts a poll outcome into an operation result: both a terminal check
failure and a ceiling timeout surface as an error diagnostic. -/
def pollToOp : PollResult → OpResult
  | PollResult.success d => OpResult.ok d
  | PollResult.terminal m => OpResult.err m
  | PollResult.timeout m => OpResult.err m
  | PollResult.nilDeref => OpResult.nilDeref

/-- Message of diag.Errorf in createSimpleRoutingQueue:
failed to create queue NAME: ERR. -/
def failedToCreateMsg (name e : String) : String :=
  "failed to create queue " ++ name ++ ": " ++ e

/-- Message of the errors built inside the read retry closure:
failed to read queue ID: ERR. -/
def failedToReadMsg (id e : String) : String :=
  "failed to read queue " ++ id ++ ": " ++ e

/-- Message of diag.Errorf in updateSimpleRoutingQueue:
failed to update queue NAME: ERR. -/
def failedToUpdateMsg (name e : String) : String :=
  "failed to update queue " ++ name ++ ": " ++ e

/-- Message of diag.Errorf in deleteSimpleRoutingQueue:
failed to delete queue ID: ERR. -/
def failedToDeleteMsg (id e : String) : String :=
  "failed to delete queue " ++ id ++ ": " ++ e

/-- Message of the NonRetryableError built in the err == nil branch of the
delete confirmation closure. The source formats the error value with %s even
though err is necessarily nil in that branch, which Go renders as the
placeholder text reproduced here. -/
def errorDeletingMsg (id : String) : String :=
  "error deleting routing queue " ++ id ++ ": %!s(<nil>)"

/-- Message of the RetryableError built in the fallthrough branch of the
delete confirmation closure: routing queue ID still exists. -/
def stillExistsMsg (id : String) : String :=
  "routing queue " ++ id ++ " still exists"

/-- Request built by createSimpleRoutingQueue from the three declared fields;
all three pointers are addresses of local variables, hence always present. -/
def toCreatequeuerequest (d : ResourceData) : Createqueuerequest :=
  { name := some d.name
    callingPartyName := some d.calling_party_name
    enableTranscription := some d.enable_transcription }

/-- Request built by updateSimpleRoutingQueue from the three declared fields. -/
def toQueuerequest (d : ResourceData) : Queuerequest :=
  { name := some d.name
    callingPartyName := some d.calling_party_name
    enableTranscription := some d.enable_transcription }

/-- Embedding of the d.Set block of readSimpleRoutingQueue. The name field is
dereferenced unconditionally (d.Set with *currentQueue.Name), so a payload
with an absent name yields none, the nil dereference. The two optional fields
go through resourcedata.SetNillableValue, which is not under src/ and is
modelled from the spec: fields absent from the observed payload leave the
local value untouched, present fields overwrite it. -/
def applyObserved (q : Queue) (d : ResourceData) : Option ResourceData :=
  match q.name with
  | none => none
  | some n =>
    some { d with
      name := n
      calling_party_name := q.callingPartyName.getD d.calling_party_name
      enable_transcription := q.enableTranscription.getD d.enable_transcription }

/-- Embedding of the retry closure of readSimpleRoutingQueue: a non-nil error
is retryable exactly on a 404 status and non-retryable otherwise; on a nil
error the observed values are copied into the resource data. Dereferencing a
nil queue or a nil queue name is the nilDeref outcome. The final
cc.CheckState() call (consistency_checker is not under src/) is modelled from
the spec: a completed read whose values have been reconciled reports success. -/
def readCheck (get : Nat → String → GetResult) (d : ResourceData)
    (attempt : Nat) : CheckResult :=
  let r := get attempt d.id
  match r.err with
  | some e =>
    if IsStatus404ByInt r.respCode then
      CheckResult.retryable (failedToReadMsg d.id e)
    else
      CheckResult.nonRetryable (failedToReadMsg d.id e)
  | none =>
    match r.queue with
    | none => CheckResult.nilDeref
    | some q =>
      match applyObserved q d with
      | none => CheckResult.nilDeref
      | some d2 => CheckResult.ok d2

/-- Embedding of readSimpleRoutingQueue: the read closure run under the
Retry/Poll Engine, returning the operation result and the list of proxy get
calls performed. -/
def readSimpleRoutingQueue (proxy : Proxy) (fuel : Nat) (d : ResourceData) :
    OpResult × List Event :=
  let r := runPoll (readCheck proxy.getRoutingQueue d) 0 fuel
  (pollToOp r.1, List.replicate r.2 Event.getCall)

/-- Embedding of createSimpleRoutingQueue: one proxy create call; on error the
wrapped diagnostic is returned at once; on success the returned identity is
dereferenced and bound with d.SetId, then readSimpleRoutingQueue runs and its
result is returned. -/
def createSimpleRoutingQueue (proxy : Proxy) (fuel : Nat) (d : ResourceData) :
    OpResult × List Event :=
  match (proxy.createRoutingQueue (toCreatequeuerequest d)).err with
  | some e =>
    (OpResult.err (failedToCreateMsg d.name e), [Event.createCall])
  | none =>
    match (proxy.createRoutingQueue (toCreatequeuerequest d)).queue with
    | none => (OpResult.nilDeref, [Event.createCall])
    | some qr =>
      match qr.id with
      | none => (OpResult.nilDeref, [Event.createCall])
      | some qid =>
        ((readSimpleRoutingQueue proxy fuel { d with id := qid }).1,
         Event.createCall :: (readSimpleRoutingQueue proxy fuel { d with id := qid }).2)

/-- Embedding of updateSimpleRoutingQueue: one proxy update call; on error the
wrapped diagnostic is returned at once; on success the function falls through
to readSimpleRoutingQueue and returns its result. -/
def updateSimpleRoutingQueue (proxy : Proxy) (fuel : Nat) (d : ResourceData) :
    OpResult × List Event :=
  match (proxy.updateRoutingQueue d.id (toQueuerequest d)).err with
  | some e => (OpResult.err (failedToUpdateMsg d.name e), [Event.updateCall])
  | none =>
    ((readSimpleRoutingQueue proxy fuel d).1,
     Event.updateCall :: (readSimpleRoutingQueue proxy fuel d).2)

/-- Embedding of the delete confirmation closure of deleteSimpleRoutingQueue,
with the branches exactly as in the source: a nil error returns a
NonRetryableError, a non-nil error with 404 status returns nil (success), and
any other non-nil error returns a RetryableError. -/
def deleteCheck (get : Nat → String → GetResult) (d : ResourceData)
    (attempt : Nat) : CheckResult :=
  let r := get attempt d.id
  match r.err with
  | none => CheckResult.nonRetryable (errorDeletingMsg d.id)
  | some _ =>
    if IsStatus404ByInt r.respCode then CheckResult.ok d
    else CheckResult.retryable (stillExistsMsg d.id)

/-- Grace period slept before the delete confirmation poll:
time.Sleep(5 * time.Second). -/
def deleteGraceSeconds : Nat := 5

/-- Ceiling of the delete confirmation poll: WithRetries(ctx, 30*time.Second, ...). -/
def deleteCeilingSeconds : Nat := 30

/-- Modelled from the spec: the ceiling of gcloud.WithRetriesForRead, the
create/update read confirmation, is not under src/. The spec fixes no
numeric value and states only that the delete confirmation ceiling is the
longer of the two; this model uses 5 seconds, consistent with that
constraint. -/
def readCeilingSeconds : Nat := 5

/-- Embedding of deleteSimpleRoutingQueue: one proxy delete call; on error the
wrapped diagnostic is returned at once; on success the function sleeps the
grace period and then runs the delete confirmation closure under the
Retry/Poll Engine. -/
def deleteSimpleRoutingQueue (proxy : Proxy) (fuel : Nat) (d : ResourceData) :
    OpResult × List Event :=
  match (proxy.deleteRoutingQueue d.id).err with
  | some e => (OpResult.err (failedToDeleteMsg d.id e), [Event.deleteCall])
  | none =>
    let r := runPoll (deleteCheck proxy.getRoutingQueue d) 0 fuel
    (pollToOp r.1,
     Event.deleteCall :: Event.sleep deleteGraceSeconds ::
       List.replicate r.2 Event.getCall)

/-- Local state fixture used by the delete confirmation evaluations. -/
def dDel : ResourceData :=
  { id := "q-1", name := "Support", calling_party_name := "Acme", enable_transcription := true }

/-- Queue payload observed while the resource is still present. -/
def queueStillThere : Queue :=
  { id := some ("q-1"), name := some ("Support"), callingPartyName := none,
    enableTranscription := none }

/-- Proxy whose delete succeeds and whose confirmation reads keep finding the
resource present (nil error, status 200). -/
def proxyStillPresent : Proxy :=
  { createRoutingQueue := fun _ => { queue := none, err := some ("unused") }
    getRoutingQueue := fun _ _ =>
      { queue := some queueStillThere, respCode := 200, err := none }
    updateRoutingQueue := fun _ _ => { queue := none, err := some ("unused") }
    deleteRoutingQueue := fun _ => { err := none } }

/-- Proxy whose delete succeeds and whose confirmation reads keep failing with
a non-404 transport error. -/
def proxyTransportFail : Proxy :=
  { createRoutingQueue := fun _ => { queue := none, err := some ("unused") }
    getRoutingQueue := fun _ _ =>
      { queue := none, respCode := 500, err := some ("boom") }
    updateRoutingQueue := fun _ _ => { queue := none, err := some ("unused") }
    deleteRoutingQueue := fun _ => { err := none } }

/-- Observed payload with every field absent. -/
def qAllAbsent : Queue :=
  { id := none, name := none, callingPartyName := none, enableTranscription := none }

/-- Local state fixture whose identity and name differ. -/
def dC7 : ResourceData :=
  { id := "123-456", name := "Support", calling_party_name := "Acme",
    enable_transcription := true }

/-- Proxy whose update fails with a client error. -/
def proxyUpdateFail : Proxy :=
  { createRoutingQueue := fun _ => { queue := none, err := none }
    getRoutingQueue := fun _ _ => { queue := none, respCode := 500, err := some ("x") }
    updateRoutingQueue := fun _ _ => { queue := none, err := some ("boom") }
    deleteRoutingQueue := fun _ => { err := none } }

/-- Starting local state before creation (identity not yet bound). -/
def dStart : ResourceData :=
  { id := "", name := "Support", calling_party_name := "Acme",
    enable_transcription := true }

/-- Queue returned by a successful create call. -/
def qCreated : Queue :=
  { id := some ("Q-1"), name := some ("Support"), callingPartyName := none,
    enableTranscription := none }

/-- Queue payload observed on a fully successful read. -/
def qObserved : Queue :=
  { id := some ("Q-1"), name := some ("Support"), callingPartyName := some ("Acme"),
    enableTranscription := some true }

/-- Proxy whose create fails with a client error. -/
def proxyCreateFail : Proxy :=
  { createRoutingQueue := fun _ => { queue := none, err := some ("boom") }
    getRoutingQueue := fun _ _ => { queue := none, respCode := 500, err := some ("x") }
    updateRoutingQueue := fun _ _ => { queue := none, err := none }
    deleteRoutingQueue := fun _ => { err := none } }

/-- Proxy whose create succeeds and whose reads observe the created queue. -/
def proxyCreateOk : Proxy :=
  { createRoutingQueue := fun _ => { queue := some qCreated, err := none }
    getRoutingQueue := fun _ _ =>
      { queue := some qObserved, respCode := 200, err := none }
    updateRoutingQueue := fun _ _ => { queue := none, err := none }
    deleteRoutingQueue := fun _ => { err := none } }

/-- Local state after the created identity has been bound. -/
def dBound : ResourceData :=
  { id := "Q-1", name := "Support", calling_party_name := "Acme",
    enable_transcription := true }

/-- Proxy whose update succeeds and whose reads observe the queue. -/
def proxyUpdateOk : Proxy :=
  { createRoutingQueue := fun _ => { queue := none, err := none }
    getRoutingQueue := fun _ _ =>
      { queue := some qObserved, respCode := 200, err := none }
    updateRoutingQueue := fun _ _ => { queue := none, err := none }
    deleteRoutingQueue := fun _ => { err := none } }

/-- Local state holding stale values before a lagged read confirmation. -/
def dStale : ResourceData :=
  { id := "Q-1", name := "Old", calling_party_name := "", enable_transcription := false }

/-- Proxy whose reads return not-found on the first two attempts and then
succeed (propagation lag). -/
def proxyLagged : Proxy :=
  { createRoutingQueue := fun _ => { queue := none, err := none }
    getRoutingQueue := fun i _ =>
      if i < 2 then { queue := none, respCode := 404, err := some ("not found") }
      else { queue := some qObserved, respCode := 200, err := none }
    updateRoutingQueue := fun _ _ => { queue := none, err := none }
    deleteRoutingQueue := fun _ => { err := none } }

/-- Observed payload carrying only the mandatory name. -/
def qFrameOnly : Queue :=
  { id := none, name := some ("Support"), callingPartyName := none,
    enableTranscription := none }

/-- Observed payload overwriting every declared field. -/
def qOverwrite : Queue :=
  { id := none, name := some ("New"), callingPartyName := some ("Beta"),
    enableTranscription := some false }

/-- Local state before reconciliation in the frame witness. -/
def dPre : ResourceData :=
  { id := "q-1", name := "Old", calling_party_name := "Acme",
    enable_transcription := true }

/-- Local state after reconciling dPre against qFrameOnly. -/
def dFrameRes : ResourceData :=
  { id := "q-1", name := "Support", calling_party_name := "Acme",
    enable_transcription := true }

/-- Local state after reconciling dPre against qOverwrite. -/
def dOverRes : ResourceData :=
  { id := "q-1", name := "New", calling_party_name := "Beta",
    enable_transcription := false }

/-- Proxy failing every operation with the same client error. -/
def proxyAllFail : Proxy :=
  { createRoutingQueue := fun _ => { queue := none, err := some ("boom") }
    getRoutingQueue := fun _ _ => { queue := none, respCode := 500, err := some ("boom") }
    updateRoutingQueue := fun _ _ => { queue := none, err := some ("boom") }
    deleteRoutingQueue := fun _ => { err := some ("boom") } }

/-- Local state fixture for the wrapping and delete witnesses. -/
def dW : ResourceData :=
  { id := "q-7", name := "Support", calling_party_name := "", enable_transcription := false }

/-- Proxy whose delete succeeds and whose confirmation read observes absence
(non-nil error with 404 status). -/
def proxyDeleteOk : Proxy :=
  { createRoutingQueue := fun _ => { queue := none, err := none }
    getRoutingQueue := fun _ _ => { queue := none, respCode := 404, err := some ("not found") }
    updateRoutingQueue := fun _ _ => { queue := none, err := none }
    deleteRoutingQueue := fun _ => { err := none } }

/-- Observed payload whose name is absent but whose optional fields are set. -/
def qNilName : Queue :=
  { id := none, name := none, callingPartyName := some ("Acme"),
    enableTranscription := some true }

/-- Read responses returning the nameless payload. -/
def getNilName : Nat → String → GetResult :=
  fun _ _ => { queue := some qNilName, respCode := 200, err := none }

/-- Read responses returning a payload with only the name set. -/
def getNamed : Nat → String → GetResult :=
  fun _ _ => { queue := some qFrameOnly, respCode := 200, err := none }

/-- Count of any event other than getCall in a replicated list of getCall
events is zero. -/
lemma count_getCall_replicate (e : Event) (h : e ≠ Event.getCall) (n : Nat) :
    (List.replicate n Event.getCall).count e = 0 := by
  induction n with
  | zero => rfl
  | succ n ih => simp [List.replicate_succ, List.count_cons, ih, h]

/-- Poll engine reaches a success outcome after k retryable attempts followed
by one successful attempt, provided the ceiling admits k + 1 attempts. -/
lemma runPoll_success_after (check : Nat → CheckResult) (d2 : ResourceData) :
    ∀ (k attempt fuel : Nat), k < fuel →
      (∀ i, i < k → (check (attempt + i)).isRetryable = true) →
      check (attempt + k) = CheckResult.ok d2 →
      (runPoll check attempt fuel).1 = PollResult.success d2 := by
  intro k
  induction k with
  | zero =>
    intro attempt fuel hfuel _ hok
    cases fuel with
    | zero => omega
    | succ f =>
      rw [Nat.add_zero] at hok
      simp [runPoll, hok]
  | succ k ih =>
    intro attempt fuel hfuel hretry hok
    cases fuel with
    | zero => omega
    | succ f =>
      have hf : f ≠ 0 := by omega
      have h0 : (check attempt).isRetryable = true := by
        have h1 := hretry 0 (Nat.succ_pos k)
        rwa [Nat.add_zero] at h1
      obtain ⟨m, hm⟩ : ∃ m, check attempt = CheckResult.retryable m := by
        cases hc : check attempt with
        | retryable m => exact ⟨m, rfl⟩
        | ok d => rw [hc] at h0; simp [CheckResult.isRetryable] at h0
        | nonRetryable m => rw [hc] at h0; simp [CheckResult.isRetryable] at h0
        | nilDeref => rw [hc] at h0; simp [CheckResult.isRetryable] at h0
      simp only [runPoll, hm, if_neg hf]
      apply ih (attempt + 1) f (by omega)
      · intro i hi
        have h2 := hretry (i + 1) (by omega)
        have harith : attempt + (i + 1) = attempt + 1 + i := by omega
        rwa [harith] at h2
      · have harith : attempt + (k + 1) = attempt + 1 + k := by omega
        rwa [harith] at hok

/-- C1: evaluation at the failing input: a delete confirmation read that finds
the resource still present (nil error) is classified NonRetryableError, ending
the delete at once with a terminal diagnostic after a single get call even
with a huge attempt budget - not the retryable outcome the claim states. -/
theorem delete_confirm_present_is_terminal :
    deleteSimpleRoutingQueue proxyStillPresent 999 dDel =
      (OpResult.err (errorDeletingMsg ("q-1")),
       [Event.deleteCall, Event.sleep 5, Event.getCall]) ∧
    deleteCheck proxyStillPresent.getRoutingQueue dDel 0 =
      CheckResult.nonRetryable (errorDeletingMsg ("q-1")) := by decide

/-- C2: evaluation at the failing input: a delete confirmation read that fails
with a non-nil, non-404 transport error is classified RetryableError and is
retried until the ceiling (three get calls at fuel three, ending in the
timeout diagnostic) - not the terminal failure the claim states. -/
theorem delete_confirm_transport_error_retried :
    deleteSimpleRoutingQueue proxyTransportFail 3 dDel =
      (OpResult.err (stillExistsMsg ("q-1")),
       [Event.deleteCall, Event.sleep 5, Event.getCall, Event.getCall, Event.getCall]) ∧
    (deleteCheck proxyTransportFail.getRoutingQueue dDel 0).isRetryable = true := by
  decide

/-- C3: create calls the client create exactly once; a non-nil error is a
terminal failure with no retry; on success the returned identity is bound and
the read operation result is returned. -/
theorem create_once_bind_then_read (proxy : Proxy) (fuel : Nat) (d : ResourceData) :
    ((createSimpleRoutingQueue proxy fuel d).2.count Event.createCall = 1) ∧
    (∀ e, (proxy.createRoutingQueue (toCreatequeuerequest d)).err = some e →
      createSimpleRoutingQueue proxy fuel d =
        (OpResult.err (failedToCreateMsg d.name e), [Event.createCall])) ∧
    (∀ q qid, (proxy.createRoutingQueue (toCreatequeuerequest d)).err = none →
      (proxy.createRoutingQueue (toCreatequeuerequest d)).queue = some q →
      q.id = some qid →
      createSimpleRoutingQueue proxy fuel d =
        ((readSimpleRoutingQueue proxy fuel { d with id := qid }).1,
         Event.createCall :: (readSimpleRoutingQueue proxy fuel { d with id := qid }).2)) := by
  refine ⟨?_, ?_, ?_⟩
  · have hrep := count_getCall_replicate Event.createCall (by decide)
    cases he : (proxy.createRoutingQueue (toCreatequeuerequest d)).err with
    | some e => simp [createSimpleRoutingQueue, he]
    | none =>
      cases hq : (proxy.createRoutingQueue (toCreatequeuerequest d)).queue with
      | none => simp [createSimpleRoutingQueue, he, hq]
      | some qr =>
        cases hid : qr.id with
        | none => simp [createSimpleRoutingQueue, he, hq, hid]
        | some qid =>
          simp [createSimpleRoutingQueue, he, hq, hid, readSimpleRoutingQueue,
            List.count_cons, hrep]
  · intro e he
    simp [createSimpleRoutingQueue, he]
  · intro q qid he hq hid
    simp [createSimpleRoutingQueue, he, hq, hid]

/-- Witness for C3 at concrete inputs: a failing create returns the wrapped
terminal diagnostic with one create call, and a successful create binds the
returned identity and returns the read result. -/
theorem create_once_bind_then_read_witness :
    createSimpleRoutingQueue proxyCreateFail 3 dStart =
      (OpResult.err (failedToCreateMsg ("Support") ("boom")), [Event.createCall]) ∧
    createSimpleRoutingQueue proxyCreateOk 3 dStart =
      ((readSimpleRoutingQueue proxyCreateOk 3 dBound).1,
       Event.createCall :: (readSimpleRoutingQueue proxyCreateOk 3 dBound).2) :=
  ⟨(create_once_bind_then_read proxyCreateFail 3 dStart).2.1 ("boom") rfl,
   (create_once_bind_then_read proxyCreateOk 3 dStart).2.2 qCreated ("Q-1") rfl rfl rfl⟩

/-- C4: during read confirmation, a non-nil client error is retryable exactly
when the status classifies as not-found and terminal otherwise; a run of
not-found attempts strictly below the ceiling followed by a successful read
yields success. -/
theorem readConfirmation_notFound_retryable :
    (∀ (get : Nat → String → GetResult) (d : ResourceData) (attempt : Nat) (e : String),
      (get attempt d.id).err = some e →
      ((readCheck get d attempt).isRetryable = IsStatus404ByInt (get attempt d.id).respCode ∧
       (readCheck get d attempt).isNonRetryable = !IsStatus404ByInt (get attempt d.id).respCode)) ∧
    (∀ (proxy : Proxy) (fuel : Nat) (d : ResourceData) (k : Nat) (q : Queue) (d2 : ResourceData),
      k < fuel →
      (∀ i, i < k → ((proxy.getRoutingQueue i d.id).err.isSome = true ∧
        IsStatus404ByInt (proxy.getRoutingQueue i d.id).respCode = true)) →
      (proxy.getRoutingQueue k d.id).err = none →
      (proxy.getRoutingQueue k d.id).queue = some q →
      applyObserved q d = some d2 →
      (readSimpleRoutingQueue proxy fuel d).1 = OpResult.ok d2) := by
  constructor
  · intro get d attempt e he
    cases h404 : IsStatus404ByInt (get attempt d.id).respCode <;>
      simp [readCheck, he, h404, CheckResult.isRetryable, CheckResult.isNonRetryable]
  · intro proxy fuel d k q d2 hk hretry herr hq happly
    have hcheck : readCheck proxy.getRoutingQueue d k = CheckResult.ok d2 := by
      simp [readCheck, herr, hq, happly]
    have hstep : ∀ i, i < k →
        ((readCheck proxy.getRoutingQueue d) (0 + i)).isRetryable = true := by
      intro i hi
      obtain ⟨hsome, h404⟩ := hretry i hi
      obtain ⟨e, he⟩ := Option.isSome_iff_exists.mp hsome
      simp [readCheck, he, h404, CheckResult.isRetryable]
    have hrun := runPoll_success_after (readCheck proxy.getRoutingQueue d) d2 k 0 fuel hk
      hstep (by rw [Nat.zero_add]; exact hcheck)
    simp [readSimpleRoutingQueue, hrun, pollToOp]

/-- Witness for C4 at concrete inputs: the first check of a lagged read is
classified retryable (its status is 404), and two not-found attempts below
the ceiling of five followed by a successful read end in success. -/
theorem readConfirmation_notFound_retryable_witness :
    ((readCheck proxyLagged.getRoutingQueue dStale 0).isRetryable =
      IsStatus404ByInt (proxyLagged.getRoutingQueue 0 dStale.id).respCode) ∧
    (readSimpleRoutingQueue proxyLagged 5 dStale).1 = OpResult.ok dBound :=
  ⟨(readConfirmation_notFound_retryable.1 proxyLagged.getRoutingQueue dStale 0
      ("not found") rfl).1,
   readConfirmation_notFound_retryable.2 proxyLagged 5 dStale 2 qObserved dBound
      (by omega) (by decide) rfl rfl rfl⟩

/-- C5: update calls the client update exactly once; a non-nil error is a
terminal failure with no retry; on success update falls through to the read
operation and returns its result. -/
theorem update_once_then_read (proxy : Proxy) (fuel : Nat) (d : ResourceData) :
    ((updateSimpleRoutingQueue proxy fuel d).2.count Event.updateCall = 1) ∧
    (∀ e, (proxy.updateRoutingQueue d.id (toQueuerequest d)).err = some e →
      updateSimpleRoutingQueue proxy fuel d =
        (OpResult.err (failedToUpdateMsg d.name e), [Event.updateCall])) ∧
    ((proxy.updateRoutingQueue d.id (toQueuerequest d)).err = none →
      updateSimpleRoutingQueue proxy fuel d =
        ((readSimpleRoutingQueue proxy fuel d).1,
         Event.updateCall :: (readSimpleRoutingQueue proxy fuel d).2)) := by
  refine ⟨?_, ?_, ?_⟩
  · have hrep := count_getCall_replicate Event.updateCall (by decide)
    cases he : (proxy.updateRoutingQueue d.id (toQueuerequest d)).err with
    | some e => simp [updateSimpleRoutingQueue, he]
    | none =>
      simp [updateSimpleRoutingQueue, he, readSimpleRoutingQueue,
        List.count_cons, hrep]
  · intro e he
    simp [updateSimpleRoutingQueue, he]
  · intro he
    simp [updateSimpleRoutingQueue, he]

/-- Witness for C5 at concrete inputs: a failing update returns the wrapped
terminal diagnostic with one update call, and a successful update falls
through to the read result. -/
theorem update_once_then_read_witness :
    updateSimpleRoutingQueue proxyUpdateFail 1 dC7 =
      (OpResult.err (failedToUpdateMsg ("Support") ("boom")), [Event.updateCall]) ∧
    updateSimpleRoutingQueue proxyUpdateOk 3 dBound =
      ((readSimpleRoutingQueue proxyUpdateOk 3 dBound).1,
       Event.updateCall :: (readSimpleRoutingQueue proxyUpdateOk 3 dBound).2) :=
  ⟨(update_once_then_read proxyUpdateFail 1 dC7).2.1 ("boom") rfl,
   (update_once_then_read proxyUpdateOk 3 dBound).2.2 rfl⟩

/-- C6 counterexample: a payload whose declared fields are all absent does not
leave the local record unchanged, as the claim predicts for absent fields: the
unconditional name dereference makes the copy-forward step crash (none). -/
theorem applyObserved_absent_name_not_unchanged :
    applyObserved qAllAbsent dDel = none ∧
    ¬ (applyObserved qAllAbsent dDel = some dDel) := by decide

/-- C6 amended: when the observed payload carries a name, each absent optional
field leaves the corresponding local value unchanged and each present field
overwrites it; the identity is never touched. -/
theorem applyObserved_frame (q : Queue) (d : ResourceData) (n : String)
    (hn : q.name = some n) :
    (applyObserved q d).isSome = true ∧
    (∀ d2, applyObserved q d = some d2 →
      d2.id = d.id ∧ d2.name = n ∧
      (q.callingPartyName = none → d2.calling_party_name = d.calling_party_name) ∧
      (∀ v, q.callingPartyName = some v → d2.calling_party_name = v) ∧
      (q.enableTranscription = none → d2.enable_transcription = d.enable_transcription) ∧
      (∀ b, q.enableTranscription = some b → d2.enable_transcription = b)) := by
  constructor
  · simp [applyObserved, hn]
  · intro d2 h2
    simp only [applyObserved, hn, Option.some.injEq] at h2
    subst h2
    refine ⟨rfl, rfl, ?_, ?_, ?_, ?_⟩
    · intro h; simp [h]
    · intro v h; simp [h]
    · intro h; simp [h]
    · intro v h; simp [h]

/-- Witness for the amended C6 at concrete inputs: absent optional fields
leave the local values unchanged and present fields overwrite them. -/
theorem applyObserved_frame_witness :
    dFrameRes.calling_party_name = dPre.calling_party_name ∧
    dFrameRes.enable_transcription = dPre.enable_transcription ∧
    dOverRes.calling_party_name = "Beta" ∧
    dOverRes.enable_transcription = false :=
  ⟨((applyObserved_frame qFrameOnly dPre ("Support") rfl).2 dFrameRes rfl).2.2.1 rfl,
   ((applyObserved_frame qFrameOnly dPre ("Support") rfl).2 dFrameRes rfl).2.2.2.2.1 rfl,
   ((applyObserved_frame qOverwrite dPre ("New") rfl).2 dOverRes rfl).2.2.2.1 ("Beta") rfl,
   ((applyObserved_frame qOverwrite dPre ("New") rfl).2 dOverRes rfl).2.2.2.2.2 false rfl⟩

/-- C7 counterexample: the terminal failure of update is wrapped with the
queue name, and the resource identity 123-456 does not occur anywhere in the
returned message, so not every terminal failure carries the identity. -/
theorem update_failure_message_lacks_identity :
    (updateSimpleRoutingQueue proxyUpdateFail 1 dC7).1 =
      OpResult.err ("failed to update queue Support: boom") ∧
    ¬ (("123-456").data <:+: ("failed to update queue Support: boom").data) := by
  refine ⟨by decide, by decide⟩

/-- C7 amended: every terminal failure of the four operations is wrapped with
the attempted operation and a resource handle before being returned - the
queue name for create and update, the identity for the read and delete
failure paths - and a client error is always returned, never swallowed. -/
theorem terminal_failures_wrapped (proxy : Proxy) (fuel : Nat) (d : ResourceData) :
    (∀ e, (proxy.createRoutingQueue (toCreatequeuerequest d)).err = some e →
      (createSimpleRoutingQueue proxy fuel d).1 =
        OpResult.err ("failed to create queue " ++ d.name ++ ": " ++ e)) ∧
    (∀ e, (proxy.updateRoutingQueue d.id (toQueuerequest d)).err = some e →
      (updateSimpleRoutingQueue proxy fuel d).1 =
        OpResult.err ("failed to update queue " ++ d.name ++ ": " ++ e)) ∧
    (∀ e, (proxy.deleteRoutingQueue d.id).err = some e →
      (deleteSimpleRoutingQueue proxy fuel d).1 =
        OpResult.err ("failed to delete queue " ++ d.id ++ ": " ++ e)) ∧
    (∀ attempt e, (proxy.getRoutingQueue attempt d.id).err = some e →
      IsStatus404ByInt (proxy.getRoutingQueue attempt d.id).respCode = false →
      readCheck proxy.getRoutingQueue d attempt =
        CheckResult.nonRetryable ("failed to read queue " ++ d.id ++ ": " ++ e)) := by
  refine ⟨?_, ?_, ?_, ?_⟩
  · intro e he
    simp [createSimpleRoutingQueue, he, failedToCreateMsg]
  · intro e he
    simp [updateSimpleRoutingQueue, he, failedToUpdateMsg]
  · intro e he
    simp [deleteSimpleRoutingQueue, he, failedToDeleteMsg]
  · intro attempt e he h404
    simp [readCheck, he, h404, failedToReadMsg]

/-- Witness for the amended C7 at concrete inputs: each failing operation
returns the wrapped diagnostic built from the operation verb and its handle. -/
theorem terminal_failures_wrapped_witness :
    (createSimpleRoutingQueue proxyAllFail 2 dW).1 =
      OpResult.err ("failed to create queue " ++ dW.name ++ ": " ++ "boom") ∧
    (updateSimpleRoutingQueue proxyAllFail 2 dW).1 =
      OpResult.err ("failed to update queue " ++ dW.name ++ ": " ++ "boom") ∧
    (deleteSimpleRoutingQueue proxyAllFail 2 dW).1 =
      OpResult.err ("failed to delete queue " ++ dW.id ++ ": " ++ "boom") ∧
    readCheck proxyAllFail.getRoutingQueue dW 0 =
      CheckResult.nonRetryable ("failed to read queue " ++ dW.id ++ ": " ++ "boom") :=
  ⟨(terminal_failures_wrapped proxyAllFail 2 dW).1 ("boom") rfl,
   (terminal_failures_wrapped proxyAllFail 2 dW).2.1 ("boom") rfl,
   (terminal_failures_wrapped proxyAllFail 2 dW).2.2.1 ("boom") rfl,
   (terminal_failures_wrapped proxyAllFail 2 dW).2.2.2 0 ("boom") rfl rfl⟩

/-- C8: after a successful client delete the orchestrator performs the fixed
grace sleep before any confirmation get call, and the delete confirmation
ceiling is strictly longer than the spec-modelled create and update read
confirmation ceiling. -/
theorem delete_grace_then_poll_longer_ceiling (proxy : Proxy) (fuel : Nat)
    (d : ResourceData) (h : (proxy.deleteRoutingQueue d.id).err = none) :
    ((deleteSimpleRoutingQueue proxy fuel d).2.take 2 =
      [Event.deleteCall, Event.sleep deleteGraceSeconds]) ∧
    ((deleteSimpleRoutingQueue proxy fuel d).2.drop 2 =
      List.replicate ((deleteSimpleRoutingQueue proxy fuel d).2.length - 2) Event.getCall) ∧
    deleteGraceSeconds = 5 ∧
    readCeilingSeconds < deleteCeilingSeconds := by
  refine ⟨?_, ?_, rfl, by decide⟩ <;> simp [deleteSimpleRoutingQueue, h]

/-- Witness for C8 at concrete inputs: the delete call and the grace sleep
precede the confirmation get calls, and the delete ceiling exceeds the read
confirmation ceiling. -/
theorem delete_grace_then_poll_longer_ceiling_witness :
    ((deleteSimpleRoutingQueue proxyDeleteOk 3 dW).2.take 2 =
      [Event.deleteCall, Event.sleep deleteGraceSeconds]) ∧
    readCeilingSeconds < deleteCeilingSeconds :=
  ⟨(delete_grace_then_poll_longer_ceiling proxyDeleteOk 3 dW rfl).1,
   (delete_grace_then_poll_longer_ceiling proxyDeleteOk 3 dW rfl).2.2.2⟩

/-- C9: the reconciliation copy-forward step is idempotent: applying it twice
with the same observed payload produces the same local state as applying it
once. -/
theorem applyObserved_idempotent (q : Queue) (d : ResourceData) :
    (applyObserved q d).bind (applyObserved q) = applyObserved q d := by
  cases hn : q.name with
  | none => simp [applyObserved, hn]
  | some n =>
    cases hc : q.callingPartyName <;> cases ht : q.enableTranscription <;>
      simp [applyObserved, hn, hc, ht]

/-- C10: inside the read check a successful client read is dereferenced
unconditionally on the name field: an absent name reaches the nil dereference
outcome, while a present name always completes the copy-forward, the two
nil-guarded optional fields notwithstanding. -/
theorem readCheck_nil_name_deref (get : Nat → String → GetResult)
    (d : ResourceData) (attempt : Nat) (q : Queue)
    (herr : (get attempt d.id).err = none)
    (hq : (get attempt d.id).queue = some q) :
    (q.name = none → readCheck get d attempt = CheckResult.nilDeref) ∧
    (∀ n, q.name = some n → (readCheck get d attempt).isOk = true) := by
  constructor
  · intro hn
    simp [readCheck, herr, hq, applyObserved, hn]
  · intro n hn
    simp [readCheck, herr, hq, applyObserved, hn, CheckResult.isOk]

/-- Witness for C10 at concrete inputs: a successful read with an absent name
reaches the nil dereference, while a present name completes even with both
optional fields absent. -/
theorem readCheck_nil_name_deref_witness :
    readCheck getNilName dW 0 = CheckResult.nilDeref ∧
    (readCheck getNamed dW 0).isOk = true :=
  ⟨(readCheck_nil_name_deref getNilName dW 0 qNilName rfl rfl).1 rfl,
   (readCheck_nil_name_deref getNamed dW 0 qFrameOnly rfl rfl).2 ("Support") rfl⟩
